import Mathlib

/-!
Verification of the loan-underwriting repository.

The repository's only component with algorithmic content is the Ratio & Risk
Evaluator described in the specification; the React dashboard in
`components/loan-application-dashboard.tsx` renders hardcoded constants.
This file embeds both:

* namespace `Underwriting` — the evaluator (computeRatios, classify,
  buildRiskFlags, decide).  The evaluator's code is not present under the
  repository's source tree (the dashboard only displays literals), so every
  definition here is modelled from the spec, as its doc comment records.
  Currency amounts and ratios are rationals (`ℚ`): the evaluator's arithmetic
  is exact division with explicit rounding to display precision.
* namespace `Dashboard` — a shallow embedding of the actual source file
  `loan-application-dashboard.tsx`: its literal constants and its single
  piece of React state (`auditTrailOpen : Bool`), with a `render` function
  from that state to the displayed view.
-/

namespace Underwriting

/-- Modelled from the spec: the enumerated employment types of a
BorrowerRecord (salaried | self-employed | other). -/
inductive EmploymentType
| salaried
| selfEmployed
| other
deriving DecidableEq, Repr

/-- Modelled from the spec: the enumerated set of computed metrics
(DTI, back-end DTI, LTV, credit utilization, savings-to-income,
net-worth-to-income, DSCR). -/
inductive RatioName
| grossDTI
| backEndDTI
| ltv
| creditUtil
| savingsToIncome
| netWorthToIncome
| dscr
deriving DecidableEq, Repr

/-- Direction of a threshold inequality: pass if ≤, or pass if ≥. -/
inductive Direction
| le
| ge
deriving DecidableEq, Repr

/-- One row of the policy threshold table: the bound and its direction. -/
structure ThresholdEntry where
  bound : ℚ
  dir : Direction
deriving DecidableEq, Repr

/-- Modelled from the spec: the threshold table of `classify`
(Gross DTI ≤ 28%, Back-end DTI ≤ 36%, LTV ≤ 80%, Credit utilization ≤ 30%,
Savings-to-income ≥ 10%, Net-worth-to-income ≥ 50%, DSCR ≥ 1.2). -/
def thresholdTable : RatioName → ThresholdEntry
| RatioName.grossDTI => ⟨28/100, Direction.le⟩
| RatioName.backEndDTI => ⟨36/100, Direction.le⟩
| RatioName.ltv => ⟨80/100, Direction.le⟩
| RatioName.creditUtil => ⟨30/100, Direction.le⟩
| RatioName.savingsToIncome => ⟨10/100, Direction.ge⟩
| RatioName.netWorthToIncome => ⟨50/100, Direction.ge⟩
| RatioName.dscr => ⟨12/10, Direction.ge⟩

/-- Modelled from the spec: `classify(ratio) -> status`; pass exactly when
the value satisfies the table inequality in the table's direction. -/
def classify (e : ThresholdEntry) (v : ℚ) : Bool :=
  match e.dir with
  | Direction.le => decide (v ≤ e.bound)
  | Direction.ge => decide (e.bound ≤ v)

/-- Modelled from the spec: one entry per computed metric — name, numeric
value, the policy threshold it was checked against, and a pass/fail status
(`status = true` means pass). -/
structure RatioResult where
  name : RatioName
  value : ℚ
  threshold : ℚ
  dir : Direction
  status : Bool
deriving DecidableEq, Repr

/-- Build the RatioResult for a named metric: the threshold and direction
come from the single table row for that name, the status from `classify`. -/
def mkResult (n : RatioName) (v : ℚ) : RatioResult :=
  ⟨n, v, (thresholdTable n).bound, (thresholdTable n).dir,
    classify (thresholdTable n) v⟩

/-- Modelled from the spec: `InvalidInputError` names the offending field. -/
structure InvalidInputError where
  fieldName : String
deriving DecidableEq, Repr

/-- Modelled from the spec: BorrowerRecord — the structured facts extracted
from documents.  Optional fields (`Option ℚ`) have explicit presence or
absence; unspecified debts default to zero per the input contract. -/
structure BorrowerRecord where
  name : String
  employmentType : EmploymentType
  annualIncome : ℚ
  monthlyDebt : ℚ
  proposedHousingPayment : Option ℚ
  savings : ℚ
  assets : ℚ
  liabilities : ℚ
  loanAmount : ℚ
  propertyValue : Option ℚ
  outstandingRevolvingBalance : ℚ
  totalRevolvingLimit : Option ℚ
  netOperatingIncome : Option ℚ
  debtService : Option ℚ
  hasMultiYearIncomeProof : Bool
deriving DecidableEq, Repr

/-- Round a rational to the nearest integer, halves up: ⌊q + 1/2⌋. -/
def roundHalfUp (q : ℚ) : ℤ := ⌊q + 1/2⌋

/-- Round to two decimal places as a percentage (stable display precision). -/
def roundPct (q : ℚ) : ℚ := (roundHalfUp (q * 10000) : ℤ) / 10000

/-- Round to two decimal places as a plain ratio (used for DSCR). -/
def roundRatio (q : ℚ) : ℚ := (roundHalfUp (q * 100) : ℤ) / 100

/-- A present denominator that is ≤ 0 (an absent one is skipped, not bad). -/
def badDenom (o : Option ℚ) : Bool :=
  match o with
  | some v => decide (v ≤ 0)
  | none => false

/-- Modelled from the spec: the (name, value) pairs `computeRatios` computes,
in a fixed order; a metric whose optional inputs are absent is skipped. -/
def ratioSpecs (r : BorrowerRecord) : List (RatioName × ℚ) :=
  [(RatioName.grossDTI, roundPct (r.monthlyDebt * 12 / r.annualIncome)),
   (RatioName.backEndDTI,
     roundPct ((r.monthlyDebt + r.proposedHousingPayment.getD 0) * 12 / r.annualIncome))]
  ++ (match r.propertyValue with
      | some pv => [(RatioName.ltv, roundPct (r.loanAmount / pv))]
      | none => [])
  ++ (match r.totalRevolvingLimit with
      | some lim => [(RatioName.creditUtil, roundPct (r.outstandingRevolvingBalance / lim))]
      | none => [])
  ++ [(RatioName.savingsToIncome, roundPct (r.savings / r.annualIncome)),
      (RatioName.netWorthToIncome, roundPct ((r.assets - r.liabilities) / r.annualIncome))]
  ++ (match r.netOperatingIncome, r.debtService with
      | some noi, some ds => if ds ≤ 0 then [] else [(RatioName.dscr, roundRatio (noi / ds))]
      | _, _ => [])

/-- The successful payload of `computeRatios`: each computed (name, value)
pair classified against its single threshold-table row. -/
def ratioList (r : BorrowerRecord) : List RatioResult :=
  (ratioSpecs r).map (fun p => mkResult p.1 p.2)

/-- Modelled from the spec: `computeRatios(record) -> sequence of RatioResult`,
failing fast with an `InvalidInputError` naming the offending field when a
required denominator (annualIncome, propertyValue, totalRevolvingLimit) is
non-positive. -/
def computeRatios (r : BorrowerRecord) : Except InvalidInputError (List RatioResult) :=
  if r.annualIncome ≤ 0 then Except.error ⟨"annualIncome"⟩
  else if badDenom r.propertyValue then Except.error ⟨"propertyValue"⟩
  else if badDenom r.totalRevolvingLimit then Except.error ⟨"totalRevolvingLimit"⟩
  else Except.ok (ratioList r)

/-- Human-readable display name of a metric, as used in risk-flag strings. -/
def displayName : RatioName → String
| RatioName.grossDTI => "Gross DTI"
| RatioName.backEndDTI => "Back-end DTI"
| RatioName.ltv => "LTV"
| RatioName.creditUtil => "Credit utilization"
| RatioName.savingsToIncome => "Savings-to-income"
| RatioName.netWorthToIncome => "Net-worth-to-income"
| RatioName.dscr => "DSCR"

/-- Display form of a metric's threshold (percentages for the percentage
ratios, a plain decimal for DSCR). -/
def displayThreshold : RatioName → String
| RatioName.grossDTI => "28%"
| RatioName.backEndDTI => "36%"
| RatioName.ltv => "80%"
| RatioName.creditUtil => "30%"
| RatioName.savingsToIncome => "10%"
| RatioName.netWorthToIncome => "50%"
| RatioName.dscr => "1.2"

/-- Modelled from the spec: the flag string for one failing ratio, phrased
"<Ratio> <below/above> threshold (Required <op> <threshold>)". -/
def flagString (x : RatioResult) : String :=
  displayName x.name
  ++ (match x.dir with
      | Direction.ge => " below threshold (Required ≥ "
      | Direction.le => " above threshold (Required ≤ ")
  ++ displayThreshold x.name ++ ")"

/-- The qualitative flag for self-employed income without multi-year proof,
with the exact wording the dashboard displays. -/
def selfEmployedFlag : String := "Self-employed income without 2-year proof"

/-- Modelled from the spec: qualitative flags derived from categorical
fields (self-employed with no multi-year income proof attached). -/
def qualitativeFlags (r : BorrowerRecord) : List String :=
  if r.employmentType = EmploymentType.selfEmployed ∧ ¬ r.hasMultiYearIncomeProof
  then [selfEmployedFlag] else []

/-- Modelled from the spec: `buildRiskFlags(ratios, record)` — one flag per
failing ratio, then the qualitative flags. -/
def buildRiskFlags (ratios : List RatioResult) (r : BorrowerRecord) : List String :=
  (ratios.filter (fun x => !x.status)).map flagString ++ qualitativeFlags r

/-- Modelled from the spec: the decision category, with an optional generated
follow-up request on conditional approval. -/
inductive Decision
| approve
| conditionalApproval (followUp : String)
| deny
deriving DecidableEq, Repr

/-- Modelled from the spec: the configured critical-failure ("hard fail")
cut line, left as configuration because the spec leaves it open. -/
structure Policy where
  isCritical : RatioName → ℚ → Bool

/-- Modelled from the spec: the generated follow-up request naming the
evidence behind the outstanding flags. -/
def followUpText (flags : List String) : String :=
  "Please provide additional documentation addressing: "
  ++ String.intercalate "; " flags

/-- Modelled from the spec: `decide(flags, ratios) -> Decision`.  Zero
failing ratios and zero flags → Approve; any critical failing ratio → Deny;
otherwise → ConditionalApproval with a generated follow-up request. -/
def decide (p : Policy) (flags : List String) (ratios : List RatioResult) : Decision :=
  let failing := ratios.filter (fun x => !x.status)
  if failing.isEmpty && flags.isEmpty then Decision.approve
  else if failing.any (fun x => p.isCritical x.name x.value) then Decision.deny
  else Decision.conditionalApproval (followUpText flags)

/-- A concrete valid borrower record used as the evaluation witness: the
dashboard's borrower figures (income 85000, monthly debt 1200, self-employed
without proof) together with the dashboard's loan figures (loan 312000 on a
400000 property) and a DSCR of 95/100. -/
def wRec : BorrowerRecord :=
  ⟨"[REDACTED]", EmploymentType.selfEmployed, 85000, 1200, none,
   20000, 100000, 20000, 312000, some 400000, 1000, some 10000,
   some 95, some 100, false⟩

/-- The ratio results of `wRec`, written out literally. -/
def wRs : List RatioResult :=
  [⟨RatioName.grossDTI, 1694/10000, 28/100, Direction.le, true⟩,
   ⟨RatioName.backEndDTI, 1694/10000, 36/100, Direction.le, true⟩,
   ⟨RatioName.ltv, 78/100, 80/100, Direction.le, true⟩,
   ⟨RatioName.creditUtil, 10/100, 30/100, Direction.le, true⟩,
   ⟨RatioName.savingsToIncome, 2353/10000, 10/100, Direction.ge, true⟩,
   ⟨RatioName.netWorthToIncome, 9412/10000, 50/100, Direction.ge, true⟩,
   ⟨RatioName.dscr, 95/100, 12/10, Direction.ge, false⟩]

/-- The single failing ratio result of `wRec`: DSCR at 0.95 against ≥ 1.2. -/
def wD : RatioResult := ⟨RatioName.dscr, 95/100, 12/10, Direction.ge, false⟩

/-- A policy in which no failure is tagged critical. -/
def wPolicy : Policy := ⟨fun _ _ => false⟩

/-- A borrower record with zero annual income (invalid denominator). -/
def zRec : BorrowerRecord :=
  ⟨"Z", EmploymentType.salaried, 0, 1200, none,
   0, 0, 0, 100000, some 200000, 0, none, none, none, true⟩

/-- A valid borrower record with the optional collateral, credit-limit and
cash-flow fields absent, used to witness the skip-on-missing behaviour. -/
def mRec : BorrowerRecord :=
  ⟨"M", EmploymentType.salaried, 50000, 500, some 1000, 5000, 10000, 0,
   100000, none, 200, none, none, none, true⟩

end Underwriting

namespace Dashboard

/-- The borrower constants of `loan-application-dashboard.tsx`, lines 25-30. -/
structure BorrowerData where
  name : String
  employmentType : String
  annualIncome : ℚ
  monthlyDebt : ℚ
deriving DecidableEq, Repr

/-- One displayed ratio row of `financialRatios`, lines 32-36 of the source:
all four fields are string or string-literal data. -/
structure DisplayRatio where
  name : String
  value : String
  status : String
  threshold : String
deriving DecidableEq, Repr

/-- The `borrowerData` literal of the source (line 25). -/
def borrowerData : BorrowerData :=
  ⟨"[REDACTED]", "Self-employed", 85000, 1200⟩

/-- The `financialRatios` literal of the source (lines 32-36). -/
def financialRatios : List DisplayRatio :=
  [⟨"DTI", "36%", "pass", "≤ 43%"⟩,
   ⟨"DSCR", "0.95", "fail", "≥ 1.2"⟩,
   ⟨"LTV", "78%", "pass", "≤ 80%"⟩]

/-- The `riskFlags` literal of the source (line 38). -/
def riskFlags : List String :=
  ["DSCR below threshold (Required ≥ 1.2)",
   "Self-employed income without 2-year proof"]

/-- The decision badge literal of the source (line 157). -/
def decisionBadge : String := "Conditional Approval"

/-- The suggested follow-up literal of the source (line 172). -/
def suggestedFollowUp : String :=
  "Please upload business bank statements from the last 6 months to verify self-employment income."

/-- What one render of `LoanApplicationDashboard` displays: the constants
plus the audit-trail section, whose content is shown exactly when the
component's one piece of state, `auditTrailOpen`, is true. -/
structure DashboardView where
  borrower : BorrowerData
  ratios : List DisplayRatio
  flags : List String
  decision : String
  followUp : String
  auditTrailOpen : Bool
  auditContentShown : Bool
deriving DecidableEq, Repr

/-- The render function of `LoanApplicationDashboard` as a function of its
only state, the boolean `auditTrailOpen` (source line 23): every displayed
datum except the audit-trail section is a literal constant. -/
def render (auditTrailOpen : Bool) : DashboardView :=
  ⟨borrowerData, financialRatios, riskFlags, decisionBadge, suggestedFollowUp,
   auditTrailOpen, auditTrailOpen⟩

end Dashboard

namespace Underwriting

/-- Evaluating the evaluator on the witness record gives exactly the literal
result list `wRs`. -/
theorem computeRatios_wRec : computeRatios wRec = Except.ok wRs := by
  unfold computeRatios
  rw [if_neg (by norm_num [wRec]), if_neg (by norm_num [wRec, badDenom]),
      if_neg (by norm_num [wRec, badDenom])]
  refine congrArg Except.ok ?_
  show ratioList wRec = wRs
  simp only [ratioList, ratioSpecs, wRec, wRs, mkResult, classify, thresholdTable,
    Option.getD, List.map_append, List.map_cons, List.map_nil]
  norm_num [roundPct, roundRatio, roundHalfUp]

/-- The name field of a built result is the metric it was built for. -/
theorem mkResult_name (n : RatioName) (v : ℚ) : (mkResult n v).name = n := rfl

/-- A built result passes exactly when its value satisfies the threshold-table
inequality of its metric, in the table's direction. -/
theorem mkResult_status_iff (n : RatioName) (v : ℚ) :
    (mkResult n v).status = true ↔
      (if (thresholdTable n).dir = Direction.le
       then v ≤ (thresholdTable n).bound
       else (thresholdTable n).bound ≤ v) := by
  cases n <;> simp [mkResult, classify, thresholdTable]

/-- Inversion of a successful `computeRatios` run: all denominator guards
passed and the output is `ratioList`. -/
theorem computeRatios_ok {r : BorrowerRecord} {rs : List RatioResult}
    (h : computeRatios r = Except.ok rs) :
    0 < r.annualIncome ∧ badDenom r.propertyValue = false ∧
      badDenom r.totalRevolvingLimit = false ∧ rs = ratioList r := by
  unfold computeRatios at h
  split_ifs at h with h1 h2 h3
  · exact ⟨lt_of_not_le h1, by simpa using h2, by simpa using h3,
      (Except.ok.injEq _ _ ▸ h).symm⟩

/-- Every member of the computed result list is `mkResult` of one of the
computed (name, value) pairs. -/
theorem mem_ratioList {r : BorrowerRecord} {x : RatioResult} (hx : x ∈ ratioList r) :
    ∃ p ∈ ratioSpecs r, x = mkResult p.1 p.2 := by
  obtain ⟨p, hp, hpx⟩ := List.mem_map.mp hx
  exact ⟨p, hp, hpx.symm⟩

/-- The computed result list names each metric at most once. -/
theorem ratioList_names_nodup (r : BorrowerRecord) :
    ((ratioList r).map RatioResult.name).Nodup := by
  have hmap : (ratioList r).map RatioResult.name = (ratioSpecs r).map Prod.fst := by
    simp [ratioList, Function.comp, mkResult_name]
  rw [hmap]
  unfold ratioSpecs
  rcases r.propertyValue with _ | pv <;> rcases r.totalRevolvingLimit with _ | lim <;>
    rcases r.netOperatingIncome with _ | noi <;> rcases r.debtService with _ | ds <;>
    simp <;> split_ifs <;> simp

/-- A metric name appears in the result list exactly when it appears among
the computed (name, value) pairs. -/
theorem name_mem_ratioList (r : BorrowerRecord) (n : RatioName) :
    (∃ x ∈ ratioList r, x.name = n) ↔ n ∈ (ratioSpecs r).map Prod.fst := by
  constructor
  · rintro ⟨x, hx, rfl⟩
    obtain ⟨p, hp, rfl⟩ := mem_ratioList hx
    exact List.mem_map.mpr ⟨p, hp, rfl⟩
  · intro hn
    obtain ⟨p, hp, rfl⟩ := List.mem_map.mp hn
    exact ⟨mkResult p.1 p.2, List.mem_map.mpr ⟨p, hp, rfl⟩, rfl⟩

/-- C1: for every valid BorrowerRecord, every RatioResult produced by
computeRatios carries the threshold and direction of the single
threshold-table row for its name, its status is pass exactly when its value
satisfies that row's inequality (≤ for the ≤-direction ratios, ≥ for the
≥-direction ones), and no metric name appears more than once, so no ratio is
evaluated against more than one threshold. -/
theorem ratio_status_consistent (r : BorrowerRecord) (rs : List RatioResult)
    (h : computeRatios r = Except.ok rs) :
    (∀ x ∈ rs,
      x.threshold = (thresholdTable x.name).bound ∧
      x.dir = (thresholdTable x.name).dir ∧
      (x.status = true ↔
        (if x.dir = Direction.le then x.value ≤ x.threshold else x.threshold ≤ x.value))) ∧
    (rs.map RatioResult.name).Nodup := by
  obtain ⟨-, -, -, rfl⟩ := computeRatios_ok h
  refine ⟨?_, ratioList_names_nodup r⟩
  intro x hx
  obtain ⟨p, hp, rfl⟩ := mem_ratioList hx
  exact ⟨rfl, rfl, mkResult_status_iff p.1 p.2⟩

/-- Witness for C1: the property instantiated at the concrete record `wRec`
and its concrete result list `wRs`. -/
theorem ratio_status_consistent_witness :
    computeRatios wRec = Except.ok wRs ∧
    ((∀ x ∈ wRs,
      x.threshold = (thresholdTable x.name).bound ∧
      x.dir = (thresholdTable x.name).dir ∧
      (x.status = true ↔
        (if x.dir = Direction.le then x.value ≤ x.threshold else x.threshold ≤ x.value))) ∧
    (wRs.map RatioResult.name).Nodup) :=
  ⟨computeRatios_wRec, ratio_status_consistent wRec wRs computeRatios_wRec⟩

/-- C2: for a BorrowerRecord with annualIncome 85000 and monthlyDebt 1200 and
no housing payment given, computeRatios yields Gross DTI = round of
1200·12/85000 = 16.94% (≈ 16.9%), which passes its ≤ 28% threshold. -/
theorem gross_dti_example :
    computeRatios wRec = Except.ok wRs ∧
    wRec.annualIncome = 85000 ∧ wRec.monthlyDebt = 1200 ∧
    wRec.proposedHousingPayment = none ∧
    (∃ x ∈ wRs, x.name = RatioName.grossDTI ∧
      x.value = roundPct (1200 * 12 / 85000) ∧ x.value = 1694/10000 ∧
      x.threshold = 28/100 ∧ x.dir = Direction.le ∧ x.status = true) := by
  refine ⟨computeRatios_wRec, rfl, rfl, rfl,
    ⟨RatioName.grossDTI, 1694/10000, 28/100, Direction.le, true⟩, ?_,
    rfl, ?_, rfl, rfl, rfl, rfl⟩
  · simp [wRs]
  · norm_num [roundPct, roundHalfUp]

/-- C3: whenever the failing conditions are exactly one failing DSCR ratio
(not policy-tagged critical) together with the self-employed-without-proof
qualitative flag, the decision is ConditionalApproval with the generated
follow-up request, never Deny. -/
theorem conditional_on_soft_fails (p : Policy) (r : BorrowerRecord)
    (rs : List RatioResult) (d : RatioResult)
    (hok : computeRatios r = Except.ok rs)
    (hfail : rs.filter (fun x => !x.status) = [d])
    (hname : d.name = RatioName.dscr)
    (hsoft : p.isCritical d.name d.value = false)
    (hq : qualitativeFlags r = [selfEmployedFlag]) :
    Underwriting.decide p (buildRiskFlags rs r) rs
      = Decision.conditionalApproval (followUpText (buildRiskFlags rs r)) := by
  unfold Underwriting.decide
  simp [buildRiskFlags, hfail, hq, hsoft]

/-- Witness for C3: on `wRec` the only failing ratio is DSCR, the
self-employed flag is present, no failure is critical, and the decision is
ConditionalApproval with the generated follow-up. -/
theorem conditional_on_soft_fails_witness :
    Underwriting.decide wPolicy (buildRiskFlags wRs wRec) wRs
      = Decision.conditionalApproval (followUpText (buildRiskFlags wRs wRec)) :=
  conditional_on_soft_fails wPolicy wRec wRs wD computeRatios_wRec rfl rfl rfl rfl

/-- C4: any computed DSCR result with value 0.95 has status fail and
produces the exact flag string "DSCR below threshold (Required ≥ 1.2)" in
the risk assessment; in general every failing ratio contributes its
"<Ratio> below/above threshold (Required <op> <threshold>)" flag. -/
theorem dscr_fail_flag (r : BorrowerRecord) (rs : List RatioResult) (x : RatioResult)
    (hok : computeRatios r = Except.ok rs) (hx : x ∈ rs)
    (hn : x.name = RatioName.dscr) (hv : x.value = 95/100) :
    x.status = false ∧
    flagString x = "DSCR below threshold (Required ≥ 1.2)" ∧
    flagString x ∈ buildRiskFlags rs r ∧
    (∀ y ∈ rs, y.status = false → flagString y ∈ buildRiskFlags rs r) := by
  obtain ⟨-, -, -, rfl⟩ := computeRatios_ok hok
  have hmem : ∀ y ∈ ratioList r, y.status = false →
      flagString y ∈ buildRiskFlags (ratioList r) r := by
    intro y hy hfy
    refine List.mem_append_left _ (List.mem_map.mpr ⟨y, ?_, rfl⟩)
    exact List.mem_filter.mpr ⟨hy, by simp [hfy]⟩
  obtain ⟨⟨n, v⟩, hp, rfl⟩ := mem_ratioList hx
  have hn' : n = RatioName.dscr := hn
  subst hn'
  have hv' : v = 95/100 := hv
  subst hv'
  have hstat : (mkResult RatioName.dscr (95/100)).status = false := by
    norm_num [mkResult, classify, thresholdTable]
  have hx' : mkResult RatioName.dscr (95/100) ∈ ratioList r :=
    List.mem_map.mpr ⟨_, hp, rfl⟩
  exact ⟨hstat, rfl, hmem _ hx' hstat, hmem⟩

/-- Witness for C4: the DSCR entry of `wRs` has value 0.95, fails, and its
exact flag string appears in the risk flags built for `wRec`. -/
theorem dscr_fail_flag_witness :
    wD ∈ wRs ∧
    (wD.status = false ∧
     flagString wD = "DSCR below threshold (Required ≥ 1.2)" ∧
     flagString wD ∈ buildRiskFlags wRs wRec ∧
     (∀ y ∈ wRs, y.status = false → flagString y ∈ buildRiskFlags wRs wRec)) :=
  ⟨by simp [wRs, wD],
   dscr_fail_flag wRec wRs wD computeRatios_wRec (by simp [wRs, wD]) rfl rfl⟩

/-- C5: a non-positive denominator field makes computeRatios signal an
InvalidInputError naming the offending field — annualIncome ≤ 0 (including
negative income, which is rejected rather than clamped) names
"annualIncome", a present non-positive propertyValue names "propertyValue",
a present non-positive totalRevolvingLimit names "totalRevolvingLimit" —
and on any successful run every used denominator is strictly positive, so
no division by zero (Infinity/NaN) can occur. -/
theorem invalid_input_guard (r : BorrowerRecord) :
    (r.annualIncome ≤ 0 → computeRatios r = Except.error ⟨"annualIncome"⟩) ∧
    (0 < r.annualIncome → ∀ pv, r.propertyValue = some pv → pv ≤ 0 →
      computeRatios r = Except.error ⟨"propertyValue"⟩) ∧
    (0 < r.annualIncome → badDenom r.propertyValue = false →
      ∀ lim, r.totalRevolvingLimit = some lim → lim ≤ 0 →
      computeRatios r = Except.error ⟨"totalRevolvingLimit"⟩) ∧
    (∀ rs, computeRatios r = Except.ok rs →
      0 < r.annualIncome ∧ (∀ pv, r.propertyValue = some pv → 0 < pv) ∧
      (∀ lim, r.totalRevolvingLimit = some lim → 0 < lim)) := by
  refine ⟨?_, ?_, ?_, ?_⟩
  · intro h
    simp [computeRatios, h]
  · intro h pv hpv hpv0
    have hb : badDenom r.propertyValue = true := by simp [badDenom, hpv, hpv0]
    simp [computeRatios, not_le.mpr h, hb]
  · intro h hb lim hl hl0
    have hb2 : badDenom r.totalRevolvingLimit = true := by simp [badDenom, hl, hl0]
    simp [computeRatios, not_le.mpr h, hb, hb2]
  · intro rs h
    obtain ⟨h1, h2, h3, -⟩ := computeRatios_ok h
    refine ⟨h1, ?_, ?_⟩
    · intro pv hpv
      rw [hpv] at h2
      simp only [badDenom, decide_eq_false_iff_not, not_le] at h2
      exact h2
    · intro lim hl
      rw [hl] at h3
      simp only [badDenom, decide_eq_false_iff_not, not_le] at h3
      exact h3

/-- Witness for C5: the record `zRec` with annualIncome = 0 makes
computeRatios signal the InvalidInputError naming "annualIncome". -/
theorem invalid_input_guard_witness :
    computeRatios zRec = Except.error ⟨"annualIncome"⟩ :=
  (invalid_input_guard zRec).1 (by simp [zRec])

/-- C6: for a BorrowerRecord with loanAmount 312000 and propertyValue
400000, computeRatios yields LTV = 78%, which passes its ≤ 80% threshold. -/
theorem ltv_example :
    computeRatios wRec = Except.ok wRs ∧
    wRec.loanAmount = 312000 ∧ wRec.propertyValue = some 400000 ∧
    (∃ x ∈ wRs, x.name = RatioName.ltv ∧
      x.value = roundPct (312000 / 400000) ∧ x.value = 78/100 ∧
      x.threshold = 80/100 ∧ x.dir = Direction.le ∧ x.status = true) := by
  refine ⟨computeRatios_wRec, rfl, rfl,
    ⟨RatioName.ltv, 78/100, 80/100, Direction.le, true⟩, ?_,
    rfl, ?_, rfl, rfl, rfl, rfl⟩
  · simp [wRs]
  · norm_num [roundPct, roundHalfUp]

/-- C7: on a successful run the result list always contains the
income-based ratios, contains LTV exactly when propertyValue is present,
contains credit utilization exactly when totalRevolvingLimit is present, and
omits DSCR when its cash-flow inputs are absent: a missing optional field
skips only the dependent ratio instead of failing the whole computation. -/
theorem missing_optional_skips (r : BorrowerRecord) (rs : List RatioResult)
    (h : computeRatios r = Except.ok rs) :
    (∃ x ∈ rs, x.name = RatioName.grossDTI) ∧
    (∃ x ∈ rs, x.name = RatioName.backEndDTI) ∧
    (∃ x ∈ rs, x.name = RatioName.savingsToIncome) ∧
    (∃ x ∈ rs, x.name = RatioName.netWorthToIncome) ∧
    ((∃ x ∈ rs, x.name = RatioName.ltv) ↔ r.propertyValue ≠ none) ∧
    ((∃ x ∈ rs, x.name = RatioName.creditUtil) ↔ r.totalRevolvingLimit ≠ none) ∧
    ((r.netOperatingIncome = none ∨ r.debtService = none) →
      ¬ ∃ x ∈ rs, x.name = RatioName.dscr) := by
  obtain ⟨-, -, -, rfl⟩ := computeRatios_ok h
  simp only [name_mem_ratioList]
  unfold ratioSpecs
  rcases hpv : r.propertyValue with _ | pv <;>
    rcases hl : r.totalRevolvingLimit with _ | lim <;>
    rcases hnoi : r.netOperatingIncome with _ | noi <;>
    rcases hds : r.debtService with _ | ds <;>
    simp [hpv, hl, hnoi, hds] <;> split_ifs <;> simp_all

/-- Witness for C7: the record `mRec` with no collateral value, no revolving
limit and no cash-flow data still evaluates successfully, keeps the
income-based ratios, and skips LTV, credit utilization and DSCR. -/
theorem missing_optional_skips_witness :
    computeRatios mRec = Except.ok (ratioList mRec) ∧
    ((∃ x ∈ ratioList mRec, x.name = RatioName.grossDTI) ∧
     (∃ x ∈ ratioList mRec, x.name = RatioName.backEndDTI) ∧
     (∃ x ∈ ratioList mRec, x.name = RatioName.savingsToIncome) ∧
     (∃ x ∈ ratioList mRec, x.name = RatioName.netWorthToIncome) ∧
     ((∃ x ∈ ratioList mRec, x.name = RatioName.ltv) ↔ mRec.propertyValue ≠ none) ∧
     ((∃ x ∈ ratioList mRec, x.name = RatioName.creditUtil) ↔
       mRec.totalRevolvingLimit ≠ none) ∧
     ((mRec.netOperatingIncome = none ∨ mRec.debtService = none) →
       ¬ ∃ x ∈ ratioList mRec, x.name = RatioName.dscr)) :=
  ⟨rfl, missing_optional_skips mRec (ratioList mRec) rfl⟩

/-- C8: the evaluator is a pure function of its inputs — two invocations of
computeRatios, buildRiskFlags and decide on identical inputs yield identical
outputs; there is no hidden state or randomness in the embedding, every
output is determined by the input record, ratio list and policy alone. -/
theorem evaluator_deterministic (r1 r2 : BorrowerRecord) (p : Policy)
    (rs : List RatioResult) (h : r1 = r2) :
    computeRatios r1 = computeRatios r2 ∧
    buildRiskFlags rs r1 = buildRiskFlags rs r2 ∧
    Underwriting.decide p (buildRiskFlags rs r1) rs
      = Underwriting.decide p (buildRiskFlags rs r2) rs := by
  subst h
  exact ⟨rfl, rfl, rfl⟩

/-- Witness for C8: determinism instantiated at the concrete input `wRec`. -/
theorem evaluator_deterministic_witness :
    computeRatios wRec = computeRatios wRec ∧
    buildRiskFlags wRs wRec = buildRiskFlags wRs wRec ∧
    Underwriting.decide wPolicy (buildRiskFlags wRs wRec) wRs
      = Underwriting.decide wPolicy (buildRiskFlags wRs wRec) wRs :=
  evaluator_deterministic wRec wRec wPolicy wRs rfl

end Underwriting

namespace Dashboard

/-- C9: the dashboard displays literal constants on every render, whatever
the state: the ratios shown are the fixed `financialRatios` list whose DTI
row shows value "36%" against threshold "≤ 43%", the flags and decision are
fixed strings, and the displayed DTI value 36% is not the Gross DTI
1200·12/85000 computed from the displayed borrower constants — there is no
evaluator in the source. -/
theorem hardcoded_dashboard :
    (render true).ratios = financialRatios ∧
    (render false).ratios = financialRatios ∧
    (render true).flags = riskFlags ∧
    (render false).flags = riskFlags ∧
    (render true).decision = "Conditional Approval" ∧
    (render false).decision = "Conditional Approval" ∧
    financialRatios =
      [⟨"DTI", "36%", "pass", "≤ 43%"⟩,
       ⟨"DSCR", "0.95", "fail", "≥ 1.2"⟩,
       ⟨"LTV", "78%", "pass", "≤ 80%"⟩] ∧
    (36 : ℚ)/100 ≠ borrowerData.monthlyDebt * 12 / borrowerData.annualIncome := by
  refine ⟨rfl, rfl, rfl, rfl, rfl, rfl, rfl, ?_⟩
  norm_num [borrowerData]

/-- C10: toggling the audit-trail boolean — the component's only state —
changes only whether the audit section's content is shown; the displayed
borrower data, ratios, flags, decision and follow-up are unchanged. -/
theorem audit_toggle_frame :
    (render true).borrower = (render false).borrower ∧
    (render true).ratios = (render false).ratios ∧
    (render true).flags = (render false).flags ∧
    (render true).decision = (render false).decision ∧
    (render true).followUp = (render false).followUp ∧
    (render true).auditContentShown = true ∧
    (render false).auditContentShown = false :=
  ⟨rfl, rfl, rfl, rfl, rfl, rfl, rfl⟩

end Dashboard
